import Mathlib

/-!
Shallow embedding of the Oauth4.0 repository: the product catalog with its
rating/review subsystem (src/models/Shop.js, src/config/db.js catalog router),
the catalog route table, and the two user-login route variants
(src/routes/userRoutes.js and src/unnamed/part_006).

JS numbers that only ever hold integers are modelled as Int / Nat; the derived
average rating is a rational. Optional JS request fields are Option values and
JS truthiness is modelled explicitly.
-/

namespace Oauth4

/-- Truthiness of an optional JS string: `undefined` and the empty string are falsy. -/
def truthyStr : Option String → Bool
  | none => false
  | some s => !(s == "")

/-- Truthiness of an optional JS number: `undefined` and `0` are falsy. -/
def truthyNum : Option Int → Bool
  | none => false
  | some n => !(n == 0)

/-- One embedded rating entry of a product (src/models/Shop.js, ratings array). -/
structure Rating where
  userId : String
  rating : Int
  review : String
  createdAt : Nat
deriving DecidableEq

/-- A product document (src/models/Shop.js, productSchema). -/
structure Product where
  id : String
  title : String
  description : String
  imgSrc : String
  price : ℚ
  stock : Int
  sellerName : String
  sellerAddress : String
  category : String
  ratings : List Rating
  avgRating : ℚ
  totalRatings : Nat
deriving DecidableEq

/-- Sum of the rating values of a rating list (the reduce in the pre-save hook). -/
def ratingSum (rs : List Rating) : Int :=
  (rs.map Rating.rating).sum

/-- The pre-save hook of src/models/Shop.js lines 80-87: recompute `avgRating`
and `totalRatings` from `ratings`, but only when `ratings` is non-empty; an
empty ratings array leaves both fields at their previous values. -/
def preSave (p : Product) : Product :=
  if p.ratings.length > 0 then
    { p with
      avgRating := (ratingSum p.ratings : ℚ) / (p.ratings.length : ℚ)
      totalRatings := p.ratings.length }
  else p

/-- The persisted product collection. -/
abbrev DB := List Product

/-- Model of `Product.findById`: first document with the given id. -/
def findById (db : DB) (id : String) : Option Product :=
  db.find? (fun p => p.id == id)

/-- Model of `document.save()` at the collection level: the stored document
with this id is replaced by the saved one. -/
def saveDoc (db : DB) (p : Product) : DB :=
  db.map (fun q => if q.id == p.id then p else q)

/-- Request body of POST /:id/rate. -/
structure RateBody where
  userId : Option String
  rating : Option Int
  review : Option String
deriving DecidableEq

/-- Outcome of the rate handler: 400, 404, or 200 with the saved product. -/
inductive RateOutcome where
  | badRequest (msg : String)
  | notFound (msg : String)
  | ok (saved : Product)
deriving DecidableEq

/-- The findIndex-then-mutate / push logic of src/config/db.js lines 212-222:
update the first entry whose `userId` matches in place (replace `rating`,
replace `review` only when the supplied review is truthy, refresh `createdAt`);
if no entry matches, append a new entry (mongoose default review is ""). -/
def upsertList (rs : List Rating) (u : String) (r : Int) (rv : Option String)
    (now : Nat) : List Rating :=
  match rs with
  | [] => [{ userId := u, rating := r, review := rv.getD "", createdAt := now }]
  | rt :: rest =>
    if rt.userId == u then
      { rt with
        rating := r
        review := if truthyStr rv then rv.getD "" else rt.review
        createdAt := now } :: rest
    else rt :: upsertList rest u r rv now

/-- POST /:id/rate (src/config/db.js lines 201-230). -/
def rateHandler (db : DB) (id : String) (body : RateBody) (now : Nat) :
    RateOutcome × DB :=
  if !truthyStr body.userId || !truthyNum body.rating
      || decide (body.rating.getD 0 < 1) || decide (body.rating.getD 0 > 5) then
    (.badRequest "Valid userId and rating (1-5) are required.", db)
  else
    match findById db id with
    | none => (.notFound "Product not found.", db)
    | some p =>
      let u := body.userId.getD ""
      let r := body.rating.getD 0
      let p2 := preSave { p with ratings := upsertList p.ratings u r body.review now }
      (.ok p2, saveDoc db p2)

/-- Outcome of the delete-rating handler: 404 (two distinct messages) or 200. -/
inductive DeleteOutcome where
  | notFound (msg : String)
  | ok (msg : String)
deriving DecidableEq

/-- DELETE /:productId/ratings/:userId (src/config/db.js lines 299-319). -/
def deleteRatingHandler (db : DB) (productId userId : String) :
    DeleteOutcome × DB :=
  match findById db productId with
  | none => (.notFound "Product not found.", db)
  | some p =>
    let newRatings := p.ratings.filter (fun rt => !(rt.userId == userId))
    if newRatings.length == p.ratings.length then
      (.notFound "Rating not found for this user.", db)
    else
      let p2 := preSave { p with ratings := newRatings }
      (.ok "Rating deleted successfully.", saveDoc db p2)

/-- Response body of GET /:id/ratings. The JS object maps each star key to the
count of entries with that rating; it is modelled as the counting function. -/
structure RatingStats where
  productId : String
  avgRating : ℚ
  totalRatings : Nat
  ratingCounts : Int → Nat

/-- Outcome of the rating-statistics handler. -/
inductive StatsOutcome where
  | notFound (msg : String)
  | ok (stats : RatingStats)

/-- GET /:id/ratings (src/config/db.js lines 250-274). -/
def statsHandler (db : DB) (id : String) : StatsOutcome :=
  match findById db id with
  | none => .notFound "Product not found."
  | some p =>
    .ok { productId := p.id
          avgRating := p.avgRating
          totalRatings := p.totalRatings
          ratingCounts := fun star => (p.ratings.filter (fun rt => rt.rating == star)).length }

/-- Projection helpers for stating closed facts about a stats outcome. -/
def statsAvg : StatsOutcome → Option ℚ
  | .ok s => some s.avgRating
  | .notFound _ => none

/-- Total-ratings projection of a stats outcome. -/
def statsTotal : StatsOutcome → Option Nat
  | .ok s => some s.totalRatings
  | .notFound _ => none

/-- Histogram projection of a stats outcome at one star value. -/
def statsCount (o : StatsOutcome) (star : Int) : Option Nat :=
  match o with
  | .ok s => some (s.ratingCounts star)
  | .notFound _ => none

/-- Descending-by-createdAt comparison used by the reviews sort
(`(a, b) => b.createdAt - a.createdAt`). -/
def createdDesc (a b : Rating) : Prop := b.createdAt ≤ a.createdAt

instance : DecidableRel createdDesc := fun _ _ => Nat.decLe _ _

instance : IsTotal Rating createdDesc :=
  ⟨fun a b => Nat.le_total b.createdAt a.createdAt⟩

instance : IsTrans Rating createdDesc :=
  ⟨fun _ _ _ h1 h2 => Nat.le_trans h2 h1⟩

/-- Drop leading whitespace characters. -/
def dropLeadingWs : List Char → List Char
  | [] => []
  | c :: cs => if c.isWhitespace then dropLeadingWs cs else c :: cs

/-- JS `String.prototype.trim`: strip whitespace from both ends. -/
def jsTrim (s : String) : String :=
  String.mk ((dropLeadingWs ((dropLeadingWs s.data).reverse)).reverse)

/-- Outcome of the reviews handler. -/
inductive ReviewsOutcome where
  | notFound (msg : String)
  | ok (reviews : List Rating)
deriving DecidableEq

/-- GET /:id/reviews (src/config/db.js lines 277-296): keep entries whose
review is truthy and non-blank after trim, sorted most-recent first. -/
def reviewsHandler (db : DB) (id : String) : ReviewsOutcome :=
  match findById db id with
  | none => .notFound "Product not found."
  | some p =>
    .ok (List.insertionSort createdDesc
      (p.ratings.filter (fun rt => !(rt.review == "") && !(jsTrim rt.review == ""))))

/-- Longest leading run of decimal digits. -/
def leadingDigits : List Char → List Char
  | [] => []
  | c :: cs => if c.isDigit then c :: leadingDigits cs else []

/-- Numeric value of a digit run. -/
def digitsVal (cs : List Char) : Nat :=
  cs.foldl (fun acc c => acc * 10 + (c.toNat - 48)) 0

/-- JS `parseInt` on a string, base 10: skip surrounding whitespace, optional
sign, then the longest digit run; `none` models NaN (no digits). -/
def parseIntJS (s : String) : Option Int :=
  match (jsTrim s).data with
  | '-' :: cs =>
    let ds := leadingDigits cs
    if ds.isEmpty then none else some (-(digitsVal ds : Int))
  | '+' :: cs =>
    let ds := leadingDigits cs
    if ds.isEmpty then none else some (digitsVal ds)
  | cs =>
    let ds := leadingDigits cs
    if ds.isEmpty then none else some (digitsVal ds)

/-- `parseInt(req.query.x)`: a missing query parameter gives NaN. -/
def jsParseIntParam (q : Option String) : Option Int :=
  match q with
  | none => none
  | some s => parseIntJS s

/-- JS `v || d`: NaN and 0 are falsy and fall back to the default. -/
def jsOrDefault (v : Option Int) (d : Int) : Int :=
  match v with
  | none => d
  | some n => if n == 0 then d else n

/-- Descending-by-avgRating comparison used by the top-rated sort. -/
def ratedDesc (a b : Product) : Prop := b.avgRating ≤ a.avgRating

instance : DecidableRel ratedDesc := fun a b =>
  inferInstanceAs (Decidable (b.avgRating ≤ a.avgRating))

instance : IsTotal Product ratedDesc :=
  ⟨fun a b => le_total b.avgRating a.avgRating⟩

instance : IsTrans Product ratedDesc :=
  ⟨fun _ _ _ h1 h2 => le_trans h2 h1⟩

/-- Core of GET /top-rated after parameter parsing: filter by
`totalRatings ≥ minRatings`, sort by `avgRating` descending, truncate. -/
def topRatedCore (db : DB) (limit minRatings : Int) : List Product :=
  (List.insertionSort ratedDesc
    (db.filter (fun p => decide (minRatings ≤ (p.totalRatings : Int))))).take limit.toNat

/-- GET /top-rated (src/config/db.js lines 233-247): both numeric parameters
go through `parseInt(x) || default` with defaults 10 and 1. -/
def topRatedHandler (db : DB) (limitQ minRatingsQ : Option String) : List Product :=
  topRatedCore db (jsOrDefault (jsParseIntParam limitQ) 10)
    (jsOrDefault (jsParseIntParam minRatingsQ) 1)

/-- One segment of an Express route pattern: a literal or a named parameter. -/
inductive Seg where
  | lit (s : String)
  | cap (s : String)
deriving DecidableEq

/-- Match one pattern segment against one path segment. -/
def segMatch : Seg → String → Bool
  | .lit l, s => l == s
  | .cap _, _ => true

/-- Match a whole pattern against a whole path, segment by segment. -/
def pathMatch : List Seg → List String → Bool
  | [], [] => true
  | sg :: sgs, s :: ss => segMatch sg s && pathMatch sgs ss
  | _, _ => false

/-- GET routes of the product catalog router in registration order
(src/config/db.js lines 58, 78, 114, 124, 143, 154, 164, 175, 189, 233,
250, 277). -/
def catalogGetRoutes : List (String × List Seg) :=
  [ ("listProducts", []),
    ("getProductById", [.cap "id"]),
    ("productsBySeller", [.lit "seller", .cap "sellerName"]),
    ("searchProducts", [.lit "search"]),
    ("availableProducts", [.lit "available"]),
    ("listCategories", [.lit "categories"]),
    ("featuredProducts", [.lit "featured"]),
    ("topSellers", [.lit "top-sellers"]),
    ("statsSummary", [.lit "stats", .lit "summary"]),
    ("topRatedRoute", [.lit "top-rated"]),
    ("ratingStatsRoute", [.cap "id", .lit "ratings"]),
    ("productReviews", [.cap "id", .lit "reviews"]) ]

/-- Express first-match dispatch over a route table. -/
def firstMatch (routes : List (String × List Seg)) (req : List String) :
    Option (String × List Seg) :=
  match routes with
  | [] => none
  | rt :: rest => if pathMatch rt.2 req then some rt else firstMatch rest req

/-- Values captured by the parameter segments of a matched pattern. -/
def capture : List Seg → List String → List (String × String)
  | .cap n :: sgs, s :: ss => (n, s) :: capture sgs ss
  | .lit _ :: sgs, _ :: ss => capture sgs ss
  | _, _ => []

/-- Dispatch of a GET request on the catalog router: handler name plus
captured route parameters. -/
def dispatchGet (req : List String) : Option (String × List (String × String)) :=
  (firstMatch catalogGetRoutes req).map (fun rt => (rt.1, capture rt.2 req))

/-- Position of a named route in the registration order. -/
def routeIdx (name : String) : Nat :=
  catalogGetRoutes.findIdx (fun rt => rt.1 == name)

/-- A stored user document (src/unnamed/part_001, userSchema); `password`
holds the bcrypt digest. -/
structure UserRec where
  name : String
  username : String
  email : String
  password : String
  role : String
  projects : List String
deriving DecidableEq

/-- Outcome of a login request, tagged by HTTP status class. -/
inductive LoginOutcome where
  | badRequest (msg : String)
  | notFound (msg : String)
  | unauthorized (msg : String)
  | forbidden (msg : String)
  | serverError (msg : String)
  | ok (username url : String)
deriving DecidableEq

/-- The static project-to-URL table of src/unnamed/part_006 lines 33-39. -/
def PROJECT_URLS : List (String × String) :=
  [ ("testing", "https://www.example.com/project1"),
    ("project2", "https://www.example.com/project2"),
    ("KrushiGowrava", "/store"),
    ("krushigowrava", "/store"),
    ("musicApp", "/GenAI") ]

/-- JS property lookup `PROJECT_URLS[project]`. -/
def lookupUrl (k : String) : Option String :=
  (PROJECT_URLS.find? (fun e => e.1 == k)).map Prod.snd

/-- Model of `User.findOne({ email })`. -/
def findUserByEmail (users : List UserRec) (e : String) : Option UserRec :=
  users.find? (fun u => u.email == e)

/-- POST /login of src/unnamed/part_006 lines 140-172. `cmp` is the external
bcrypt comparison oracle (plaintext against stored digest). -/
def loginPart006 (users : List UserRec) (cmp : String → String → Bool)
    (email password project : Option String) : LoginOutcome :=
  if !truthyStr email || !truthyStr password || !truthyStr project then
    .badRequest "Missing email, password, or project"
  else
    match findUserByEmail users (email.getD "") with
    | none => .notFound "User not found"
    | some user =>
      if !(cmp (password.getD "") user.password) then
        .unauthorized "Invalid credentials"
      else if !(user.projects.contains (project.getD "")) then
        .forbidden "You don\x27t have access to this project"
      else
        let projectUrl := lookupUrl (project.getD "")
        if truthyStr projectUrl then
          .ok user.username (projectUrl.getD "")
        else
          .notFound "Project URL not found"

/-- POST /login of src/routes/userRoutes.js lines 238-276. Every failure goes
through `handleError`, which always responds 500 with the given message; the
three pre-checks all pass "User login failed". The success path evaluates
`PROJECT_URLS[project]`, but no `PROJECT_URLS` binding exists in that module,
so the reference throws at run time and the catch block responds 500 with
"Error during login"; the handler therefore never returns a 2xx outcome. -/
def loginUserRoutes (users : List UserRec) (cmp : String → String → Bool)
    (email password project : Option String) : LoginOutcome :=
  if !truthyStr email || !truthyStr password || !truthyStr project then
    .serverError "Validation failed"
  else
    match findUserByEmail users (email.getD "") with
    | none => .serverError "User login failed"
    | some user =>
      if !(cmp (password.getD "") user.password) then
        .serverError "User login failed"
      else if !(user.projects.contains (project.getD "")) then
        .serverError "User login failed"
      else
        .serverError "Error during login"

/-- Helper to build a concrete product with fixed descriptive fields. -/
def mkProduct (id : String) (ratings : List Rating) (avg : ℚ) (total : Nat) : Product :=
  { id := id, title := "t", description := "d", imgSrc := "i", price := 1, stock := 1,
    sellerName := "s", sellerAddress := "a", category := "c",
    ratings := ratings, avgRating := avg, totalRatings := total }

/-- A product with exactly one rating, aggregates consistent. -/
def exOneRating : Product := mkProduct "p1" [⟨"u1", 3, "", 1⟩] 3 1

/-- A collection holding only `exOneRating`. -/
def exDbOne : DB := [exOneRating]

/-- A product with two ratings from two users, aggregates consistent. -/
def exTwoRatings : Product :=
  mkProduct "p2" [⟨"u1", 5, "good", 1⟩, ⟨"u2", 3, "", 2⟩] 4 2

/-- A collection holding only `exTwoRatings`. -/
def exDbTwo : DB := [exTwoRatings]

/-- A fresh product with no ratings. -/
def exFresh : Product := mkProduct "p8" [] 0 0

/-- The state after three upserts {u1 ↦ 5, u2 ↦ 5, u3 ↦ 4} on a fresh product. -/
def exDbThreeUpserts : DB :=
  (rateHandler
    (rateHandler
      (rateHandler [exFresh] "p8" ⟨some "u1", some 5, none⟩ 1).2
      "p8" ⟨some "u2", some 5, none⟩ 2).2
    "p8" ⟨some "u3", some 4, none⟩ 3).2

/-- Concrete user table for the login facts. -/
def exUsers : List UserRec :=
  [⟨"Alice", "alice", "a@x.com", "hash1", "user", ["testing"]⟩]

/-- Concrete stand-in for the external bcrypt comparison: a candidate matches
exactly the stored digest string. -/
def exCmp : String → String → Bool := fun p h => p == h

/-- The spec invariant on the derived aggregate fields: `avgRating` is the
arithmetic mean of the rating values (0 when no ratings) and `totalRatings`
is the number of entries. -/
def aggConsistent (p : Product) : Prop :=
  p.avgRating = (if p.ratings = [] then 0 else (ratingSum p.ratings : ℚ) / (p.ratings.length : ℚ))
    ∧ p.totalRatings = p.ratings.length

instance (p : Product) : Decidable (aggConsistent p) := by
  unfold aggConsistent; infer_instance

theorem preSave_id (p : Product) : (preSave p).id = p.id := by
  unfold preSave; split <;> rfl

theorem preSave_ratings (p : Product) : (preSave p).ratings = p.ratings := by
  unfold preSave; split <;> rfl

theorem findById_saveDoc (db : DB) (pid : String) (q : Product) (hq : q.id = pid)
    (hex : (findById db pid).isSome) : findById (saveDoc db q) pid = some q := by
  induction db with
  | nil => simp [findById] at hex
  | cons a l ih =>
    by_cases ha : a.id = pid
    · simp [findById, saveDoc, ha, hq]
    · have ha2 : ¬ a.id = q.id := by rw [hq]; exact ha
      have hex2 : (findById l pid).isSome := by
        simpa [findById, List.find?_cons, ha] using hex
      simpa [findById, saveDoc, ha, ha2] using ih hex2

/-- C1 counterexample: deleting the only rating of a product is a completing
persistence write, yet the saved document keeps `avgRating = 3` and
`totalRatings = 1` while its ratings sequence is empty, because the pre-save
hook skips the recompute when `ratings` is empty. -/
theorem c1_counterexample :
    (deleteRatingHandler exDbOne "p1" "u1").1 = DeleteOutcome.ok "Rating deleted successfully."
    ∧ (deleteRatingHandler exDbOne "p1" "u1").2 = [{ exOneRating with ratings := [] }]
    ∧ ¬ aggConsistent { exOneRating with ratings := [] } := by
  decide

/-- C1 (amended): at any save whose ratings sequence is non-empty, the saved
document satisfies the mean/count invariant; a save with an empty ratings
sequence leaves the document unchanged, so `avgRating` and `totalRatings`
retain their previous (possibly stale) values. -/
theorem c1_agg_recompute_amended :
    (∀ p : Product, p.ratings ≠ [] → aggConsistent (preSave p))
    ∧ (∀ p : Product, p.ratings = [] → preSave p = p) := by
  constructor
  · intro p hp
    have hlen : p.ratings.length > 0 := List.length_pos.mpr hp
    unfold preSave aggConsistent
    rw [if_pos hlen]
    exact ⟨by simp [hp], rfl⟩
  · intro p hp
    unfold preSave
    rw [if_neg (by simp [hp])]

/-- C1 witness: the amended statement applied to a one-rating product and to a
product with no ratings. -/
theorem c1_witness :
    aggConsistent (preSave exOneRating) ∧ preSave exFresh = exFresh :=
  ⟨c1_agg_recompute_amended.1 exOneRating (by decide),
   c1_agg_recompute_amended.2 exFresh rfl⟩

theorem length_filter_not {α : Type} (q : α → Bool) (l : List α) :
    (l.filter (fun a => !(q a))).length = l.length - l.countP q := by
  induction l with
  | nil => rfl
  | cons a l ih =>
    have hle : l.countP q ≤ l.length := l.countP_le_length q
    rw [List.filter_cons, List.countP_cons]
    by_cases ha : q a
    · simp [ha, ih]
    · simp [ha, ih]
      omega

/-- C2 counterexample: deleting the rating of the only rater succeeds, but the
saved document still reports `totalRatings = 1`: it did not decrease by 1. -/
theorem c2_counterexample :
    (deleteRatingHandler exDbOne "p1" "u1").1 = DeleteOutcome.ok "Rating deleted successfully."
    ∧ (findById (deleteRatingHandler exDbOne "p1" "u1").2 "p1").map Product.totalRatings = some 1
    ∧ (findById (deleteRatingHandler exDbOne "p1" "u1").2 "p1").map Product.totalRatings
        ≠ some (exOneRating.totalRatings - 1) := by
  decide

/-- C2 (amended): when the product exists but the user has no rating entry,
delete-rating fails with the rating-specific 404 and the collection is
unchanged; when the user has exactly one entry and the stored count was
consistent, deletion commits, the entry disappears from the stored ratings
and hence from subsequent list-reviews and rating-stats results, and
`totalRatings` decreases by exactly 1 when other ratings remain — but keeps
its old value when the deleted rating was the last one. -/
theorem c2_delete_rating_amended :
    (∀ (db : DB) (pid uid : String) (p : Product), findById db pid = some p →
      (∀ rt ∈ p.ratings, rt.userId ≠ uid) →
      deleteRatingHandler db pid uid = (DeleteOutcome.notFound "Rating not found for this user.", db))
    ∧ (∀ (db : DB) (pid uid : String) (p : Product), findById db pid = some p →
      p.totalRatings = p.ratings.length →
      p.ratings.countP (fun rt => rt.userId == uid) = 1 →
      (deleteRatingHandler db pid uid).1 = DeleteOutcome.ok "Rating deleted successfully."
      ∧ findById (deleteRatingHandler db pid uid).2 pid
          = some (preSave { p with ratings := p.ratings.filter (fun rt => !(rt.userId == uid)) })
      ∧ (p.ratings.filter (fun rt => !(rt.userId == uid)) ≠ [] →
          (preSave { p with ratings := p.ratings.filter (fun rt => !(rt.userId == uid)) }).totalRatings
            = p.totalRatings - 1)
      ∧ (p.ratings.filter (fun rt => !(rt.userId == uid)) = [] →
          (preSave { p with ratings := p.ratings.filter (fun rt => !(rt.userId == uid)) }).totalRatings
            = p.totalRatings)
      ∧ (∀ rt ∈ (preSave { p with ratings := p.ratings.filter (fun rt => !(rt.userId == uid)) }).ratings,
          rt.userId ≠ uid)
      ∧ (∀ l, reviewsHandler (deleteRatingHandler db pid uid).2 pid = ReviewsOutcome.ok l →
          ∀ rt ∈ l, rt.userId ≠ uid)
      ∧ (∀ s, statsHandler (deleteRatingHandler db pid uid).2 pid = StatsOutcome.ok s →
          ∀ star : Int, s.ratingCounts star
            = ((p.ratings.filter (fun rt => !(rt.userId == uid))).filter
                (fun rt => rt.rating == star)).length)) := by
  constructor
  · intro db pid uid p hfind hnone
    have hf : p.ratings.filter (fun rt => !(rt.userId == uid)) = p.ratings :=
      List.filter_eq_self.mpr (by intro rt hrt; simpa using hnone rt hrt)
    simp [deleteRatingHandler, hfind, hf]
  · intro db pid uid p hfind htot hcount
    have hpid : p.id = pid := by
      have := List.find?_some hfind
      simpa using this
    have hlenpos : 1 ≤ p.ratings.length := by
      have := p.ratings.countP_le_length (fun rt => rt.userId == uid)
      omega
    have hflen : (p.ratings.filter (fun rt => !(rt.userId == uid))).length
        = p.ratings.length - 1 := by
      rw [length_filter_not, hcount]
    have hne : ((p.ratings.filter (fun rt => !(rt.userId == uid))).length
        == p.ratings.length) = false := by
      rw [hflen]
      simp
      omega
    have hresult : deleteRatingHandler db pid uid
        = (DeleteOutcome.ok "Rating deleted successfully.",
           saveDoc db (preSave { p with ratings := p.ratings.filter (fun rt => !(rt.userId == uid)) })) := by
      simp [deleteRatingHandler, hfind, hne]
    have hsavedid : (preSave { p with ratings := p.ratings.filter (fun rt => !(rt.userId == uid)) }).id
        = pid := by rw [preSave_id]; exact hpid
    have hfind2 : findById (deleteRatingHandler db pid uid).2 pid
        = some (preSave { p with ratings := p.ratings.filter (fun rt => !(rt.userId == uid)) }) := by
      rw [hresult]
      exact findById_saveDoc db pid _ hsavedid (by rw [hfind]; rfl)
    have hmemne : ∀ rt ∈ p.ratings.filter (fun rt => !(rt.userId == uid)), rt.userId ≠ uid := by
      intro rt hrt
      have := List.of_mem_filter hrt
      simpa using this
    refine ⟨by rw [hresult], hfind2, ?_, ?_, ?_, ?_, ?_⟩
    · intro hnonempty
      have hlen2 : 0 < (p.ratings.filter (fun rt => !(rt.userId == uid))).length :=
        List.length_pos.mpr hnonempty
      unfold preSave
      rw [if_pos (by simpa using hlen2)]
      simp [hflen, htot]
    · intro hempty
      unfold preSave
      rw [if_neg (by simp [hempty])]
    · intro rt hrt
      rw [preSave_ratings] at hrt
      exact hmemne rt hrt
    · intro l hl rt hrt
      unfold reviewsHandler at hl
      rw [hfind2] at hl
      simp only [ReviewsOutcome.ok.injEq] at hl
      subst hl
      have h1 : rt ∈ (preSave { p with ratings := p.ratings.filter (fun rt => !(rt.userId == uid)) }).ratings.filter
          (fun x => !(x.review == "") && !(jsTrim x.review == "")) := by
        simpa using (List.mem_insertionSort createdDesc).mp hrt
      have h2 := List.mem_of_mem_filter h1
      rw [preSave_ratings] at h2
      exact hmemne rt h2
    · intro s hs star
      unfold statsHandler at hs
      rw [hfind2] at hs
      simp only [StatsOutcome.ok.injEq] at hs
      subst hs
      simp [preSave_ratings]

/-- C2 witness: deleting the rating of user u1 from a two-rating product via
the amended statement; the count drops from 2 to 1 and u1 is gone. -/
theorem c2_witness :
    (deleteRatingHandler exDbTwo "p2" "u1").1 = DeleteOutcome.ok "Rating deleted successfully."
    ∧ (exTwoRatings.ratings.filter (fun rt => !(rt.userId == "u1")) ≠ [] →
        (preSave { exTwoRatings with
          ratings := exTwoRatings.ratings.filter (fun rt => !(rt.userId == "u1")) }).totalRatings
          = exTwoRatings.totalRatings - 1) := by
  have h := c2_delete_rating_amended.2 exDbTwo "p2" "u1" exTwoRatings (by decide) (by decide) (by decide)
  exact ⟨h.1, h.2.2.1⟩

@[simp] theorem pathMatch_nil_nil : pathMatch [] [] = true := rfl

@[simp] theorem pathMatch_nil_cons (s : String) (ss : List String) :
    pathMatch [] (s :: ss) = false := rfl

@[simp] theorem pathMatch_cons_nil (sg : Seg) (sgs : List Seg) :
    pathMatch (sg :: sgs) [] = false := rfl

@[simp] theorem pathMatch_cons_cons (sg : Seg) (sgs : List Seg) (s : String) (ss : List String) :
    pathMatch (sg :: sgs) (s :: ss) = (segMatch sg s && pathMatch sgs ss) := rfl

@[simp] theorem segMatch_lit (l s : String) : segMatch (.lit l) s = (l == s) := rfl

@[simp] theorem segMatch_cap (n s : String) : segMatch (.cap n) s = true := rfl

theorem dispatch_fst_cases (req : List String) :
    (dispatchGet req).map Prod.fst = none
    ∨ (dispatchGet req).map Prod.fst = some "listProducts"
    ∨ (dispatchGet req).map Prod.fst = some "getProductById"
    ∨ (dispatchGet req).map Prod.fst = some "productsBySeller"
    ∨ (dispatchGet req).map Prod.fst = some "statsSummary"
    ∨ (dispatchGet req).map Prod.fst = some "ratingStatsRoute"
    ∨ (dispatchGet req).map Prod.fst = some "productReviews" := by
  match req with
  | [] => simp [dispatchGet, firstMatch, catalogGetRoutes]
  | [s] => simp [dispatchGet, firstMatch, catalogGetRoutes]
  | s :: t :: ss =>
    simp only [dispatchGet, firstMatch, catalogGetRoutes, pathMatch_nil_cons,
      pathMatch_cons_cons, pathMatch_cons_nil, pathMatch_nil_nil, segMatch_lit, segMatch_cap,
      Bool.true_and, Bool.and_false, Bool.false_and, Bool.and_true, if_false, if_true,
      Bool.false_eq_true, ite_false, ite_true]
    split_ifs <;> simp

/-- C3: in the catalog router the parameterized GET "/:id" route is registered
before the literal GET routes "/search", "/available", "/categories",
"/featured", "/top-sellers" and "/top-rated"; under first-match dispatch each
of those literal paths is handled by the get-product-by-id handler with the
literal segment captured as `id`, and the handlers registered for those
literal paths are never selected for any request. -/
theorem c3_literal_routes_shadowed :
    dispatchGet ["search"] = some ("getProductById", [("id", "search")])
    ∧ dispatchGet ["available"] = some ("getProductById", [("id", "available")])
    ∧ dispatchGet ["categories"] = some ("getProductById", [("id", "categories")])
    ∧ dispatchGet ["featured"] = some ("getProductById", [("id", "featured")])
    ∧ dispatchGet ["top-sellers"] = some ("getProductById", [("id", "top-sellers")])
    ∧ dispatchGet ["top-rated"] = some ("getProductById", [("id", "top-rated")])
    ∧ routeIdx "getProductById" < routeIdx "searchProducts"
    ∧ routeIdx "getProductById" < routeIdx "availableProducts"
    ∧ routeIdx "getProductById" < routeIdx "listCategories"
    ∧ routeIdx "getProductById" < routeIdx "featuredProducts"
    ∧ routeIdx "getProductById" < routeIdx "topSellers"
    ∧ routeIdx "getProductById" < routeIdx "topRatedRoute"
    ∧ (∀ req : List String,
        (dispatchGet req).map Prod.fst ≠ some "searchProducts"
        ∧ (dispatchGet req).map Prod.fst ≠ some "availableProducts"
        ∧ (dispatchGet req).map Prod.fst ≠ some "listCategories"
        ∧ (dispatchGet req).map Prod.fst ≠ some "featuredProducts"
        ∧ (dispatchGet req).map Prod.fst ≠ some "topSellers"
        ∧ (dispatchGet req).map Prod.fst ≠ some "topRatedRoute") := by
  refine ⟨by decide, by decide, by decide, by decide, by decide, by decide,
    by decide, by decide, by decide, by decide, by decide, by decide, ?_⟩
  intro req
  rcases dispatch_fst_cases req with h | h | h | h | h | h | h <;>
    exact ⟨by simp [h], by simp [h], by simp [h], by simp [h], by simp [h], by simp [h]⟩

/-- C4: evaluating the mounted login variant (src/routes/userRoutes.js) at a
request whose credentials match and whose user holds the requested project
yields a 500 "Error during login" instead of the project URL, because that
module never defines `PROJECT_URLS`; its three failure cases all collapse to
the identical 500 "User login failed", so no outcome there matches the claim.
The variant in src/unnamed/part_006 realizes the claimed behavior: distinct
404 / 401 / 403 failures and a successful lookup in the static table. The
final conjunct shows the mounted variant can never return a success outcome
at all. -/
theorem c4_login_counterexample :
    (loginUserRoutes exUsers exCmp (some "a@x.com") (some "hash1") (some "testing")
      = LoginOutcome.serverError "Error during login")
    ∧ (loginUserRoutes exUsers exCmp (some "absent@x.com") (some "hash1") (some "testing")
      = LoginOutcome.serverError "User login failed")
    ∧ (loginUserRoutes exUsers exCmp (some "a@x.com") (some "wrong") (some "testing")
      = LoginOutcome.serverError "User login failed")
    ∧ (loginUserRoutes exUsers exCmp (some "a@x.com") (some "hash1") (some "musicApp")
      = LoginOutcome.serverError "User login failed")
    ∧ (loginPart006 exUsers exCmp (some "a@x.com") (some "hash1") (some "testing")
      = LoginOutcome.ok "alice" "https://www.example.com/project1")
    ∧ (loginPart006 exUsers exCmp (some "absent@x.com") (some "hash1") (some "testing")
      = LoginOutcome.notFound "User not found")
    ∧ (loginPart006 exUsers exCmp (some "a@x.com") (some "wrong") (some "testing")
      = LoginOutcome.unauthorized "Invalid credentials")
    ∧ (loginPart006 exUsers exCmp (some "a@x.com") (some "hash1") (some "project2")
      = LoginOutcome.forbidden "You don\x27t have access to this project")
    ∧ (∀ (users : List UserRec) (cmp : String → String → Bool)
        (email password project : Option String) (u url : String),
        loginUserRoutes users cmp email password project ≠ LoginOutcome.ok u url) := by
  refine ⟨by decide, by decide, by decide, by decide, by decide, by decide, by decide,
    by decide, ?_⟩
  intro users cmp email password project u url
  unfold loginUserRoutes
  rcases hfind : findUserByEmail users (email.getD "") with _ | user <;>
    simp [hfind] <;> split_ifs <;> simp

/-- C5 counterexample: a malformed numeric `limit` ("abc") on the top-rated
query does not fail with any error — `parseInt` yields NaN, `|| 10`
substitutes the default, and the handler returns the normal 200 result,
identical to the result with the parameter omitted. -/
theorem c5_counterexample :
    topRatedHandler exDbOne (some "abc") none = [exOneRating]
    ∧ topRatedHandler exDbOne (some "abc") none = topRatedHandler exDbOne none none
    ∧ jsParseIntParam (some "abc") = none := by
  decide

/-- C5 (amended): on the top-rated query a malformed numeric parameter does
not produce a QueryError; `parseInt` yields NaN and the `|| default` fallback
makes the query behave exactly as if the parameter were omitted (limit 10,
minRatings 1). A well-formed query matching no documents returns the empty
result set rather than an error. -/
theorem c5_malformed_params_fall_back :
    (∀ (db : DB) (s : String) (minq : Option String), parseIntJS s = none →
        topRatedHandler db (some s) minq = topRatedHandler db none minq)
    ∧ (∀ (db : DB) (limq : Option String) (s : String), parseIntJS s = none →
        topRatedHandler db limq (some s) = topRatedHandler db limq none)
    ∧ (∀ (db : DB) (limq minq : Option String),
        db.filter (fun p =>
          decide ((jsOrDefault (jsParseIntParam minq) 1) ≤ (p.totalRatings : Int))) = [] →
        topRatedHandler db limq minq = []) := by
  refine ⟨?_, ?_, ?_⟩
  · intro db s minq h
    simp [topRatedHandler, jsParseIntParam, h]
  · intro db limq s h
    simp [topRatedHandler, jsParseIntParam, h]
  · intro db limq minq h
    simp only [topRatedHandler, topRatedCore]
    rw [h]
    simp

/-- C5 witness: the amended statement applied to a concrete store and the
malformed parameter "abc", and to a store in which no product reaches the
default minimum rating count. -/
theorem c5_witness :
    topRatedHandler exDbOne (some "abc") none = topRatedHandler exDbOne none none
    ∧ topRatedHandler [exFresh] none none = [] :=
  ⟨c5_malformed_params_fall_back.1 exDbOne "abc" none (by decide),
   c5_malformed_params_fall_back.2.2 [exFresh] none none (by decide)⟩

/-- C6: upsert-rating fails with the 400 validation error when `userId` is
absent (or JS-falsy), when `rating` is absent (or 0, which is JS-falsy, so in
particular rating 0 fails), or when the rating lies outside [1,5] (so rating
6 fails); with a present userId and rating 1 or 5 the request passes
validation and never produces the 400 validation response. -/
theorem c6_upsert_validation :
    (∀ (db : DB) (id : String) (body : RateBody) (now : Nat),
        truthyStr body.userId = false →
        rateHandler db id body now
          = (RateOutcome.badRequest "Valid userId and rating (1-5) are required.", db))
    ∧ (∀ (db : DB) (id : String) (body : RateBody) (now : Nat),
        truthyNum body.rating = false →
        rateHandler db id body now
          = (RateOutcome.badRequest "Valid userId and rating (1-5) are required.", db))
    ∧ (∀ (db : DB) (id : String) (body : RateBody) (now : Nat) (r : Int),
        body.rating = some r → r < 1 →
        rateHandler db id body now
          = (RateOutcome.badRequest "Valid userId and rating (1-5) are required.", db))
    ∧ (∀ (db : DB) (id : String) (body : RateBody) (now : Nat) (r : Int),
        body.rating = some r → 5 < r →
        rateHandler db id body now
          = (RateOutcome.badRequest "Valid userId and rating (1-5) are required.", db))
    ∧ (∀ (db : DB) (id u : String) (rv : Option String) (now : Nat),
        u ≠ "" →
        (rateHandler db id ⟨some u, some 1, rv⟩ now).1
          ≠ RateOutcome.badRequest "Valid userId and rating (1-5) are required.")
    ∧ (∀ (db : DB) (id u : String) (rv : Option String) (now : Nat),
        u ≠ "" →
        (rateHandler db id ⟨some u, some 5, rv⟩ now).1
          ≠ RateOutcome.badRequest "Valid userId and rating (1-5) are required.") := by
  refine ⟨?_, ?_, ?_, ?_, ?_, ?_⟩
  · intro db id body now h
    simp [rateHandler, h]
  · intro db id body now h
    simp [rateHandler, h]
  · intro db id body now r hr hlt
    simp [rateHandler, hr, hlt]
  · intro db id body now r hr hgt
    simp [rateHandler, hr, hgt]
  · intro db id u rv now hu
    have hbeq : (u == "") = false := beq_eq_false_iff_ne.mpr hu
    rcases hf : findById db id with _ | p <;>
      simp [rateHandler, truthyStr, truthyNum, hbeq, hf]
  · intro db id u rv now hu
    have hbeq : (u == "") = false := beq_eq_false_iff_ne.mpr hu
    rcases hf : findById db id with _ | p <;>
      simp [rateHandler, truthyStr, truthyNum, hbeq, hf]

/-- C6 witness: the validation conjuncts applied at concrete requests —
missing userId, missing rating, rating 0, rating 6, and the accepted
boundary ratings 1 and 5. -/
theorem c6_witness :
    rateHandler exDbOne "p1" ⟨none, some 3, none⟩ 7
      = (RateOutcome.badRequest "Valid userId and rating (1-5) are required.", exDbOne)
    ∧ rateHandler exDbOne "p1" ⟨some "u9", none, none⟩ 7
      = (RateOutcome.badRequest "Valid userId and rating (1-5) are required.", exDbOne)
    ∧ rateHandler exDbOne "p1" ⟨some "u9", some 0, none⟩ 7
      = (RateOutcome.badRequest "Valid userId and rating (1-5) are required.", exDbOne)
    ∧ rateHandler exDbOne "p1" ⟨some "u9", some 6, none⟩ 7
      = (RateOutcome.badRequest "Valid userId and rating (1-5) are required.", exDbOne)
    ∧ (rateHandler exDbOne "p1" ⟨some "u9", some 1, none⟩ 7).1
      ≠ RateOutcome.badRequest "Valid userId and rating (1-5) are required."
    ∧ (rateHandler exDbOne "p1" ⟨some "u9", some 5, none⟩ 7).1
      ≠ RateOutcome.badRequest "Valid userId and rating (1-5) are required." :=
  ⟨c6_upsert_validation.1 exDbOne "p1" ⟨none, some 3, none⟩ 7 (by decide),
   c6_upsert_validation.2.1 exDbOne "p1" ⟨some "u9", none, none⟩ 7 (by decide),
   c6_upsert_validation.2.1 exDbOne "p1" ⟨some "u9", some 0, none⟩ 7 (by decide),
   c6_upsert_validation.2.2.2.1 exDbOne "p1" ⟨some "u9", some 6, none⟩ 7 6 rfl (by decide),
   c6_upsert_validation.2.2.2.2.1 exDbOne "p1" "u9" none 7 (by decide),
   c6_upsert_validation.2.2.2.2.2 exDbOne "p1" "u9" none 7 (by decide)⟩

/-- C7: with both parameters omitted the top-rated query uses limit 10 and
minRatings 1; every returned product has `totalRatings ≥ minRatings`; the
result is ordered by `avgRating` descending; it never exceeds `limit`
entries; when at most `limit` products qualify it consists of exactly the
qualifying products; and a product with fewer than `minRatings` ratings is
excluded no matter its average. -/
theorem c7_top_rated :
    (∀ db : DB, topRatedHandler db none none = topRatedCore db 10 1)
    ∧ (∀ (db : DB) (limit minR : Int) (p : Product),
        p ∈ topRatedCore db limit minR → minR ≤ (p.totalRatings : Int))
    ∧ (∀ (db : DB) (limit minR : Int), List.Sorted ratedDesc (topRatedCore db limit minR))
    ∧ (∀ (db : DB) (limit minR : Int), (topRatedCore db limit minR).length ≤ limit.toNat)
    ∧ (∀ (db : DB) (limit minR : Int),
        (db.filter (fun p => decide (minR ≤ (p.totalRatings : Int)))).length ≤ limit.toNat →
        (topRatedCore db limit minR).Perm
          (db.filter (fun p => decide (minR ≤ (p.totalRatings : Int)))))
    ∧ (∀ (db : DB) (limit minR : Int) (p : Product),
        (p.totalRatings : Int) < minR → p ∉ topRatedCore db limit minR) := by
  have hmem : ∀ (db : DB) (limit minR : Int) (p : Product),
      p ∈ topRatedCore db limit minR → minR ≤ (p.totalRatings : Int) := by
    intro db limit minR p hp
    unfold topRatedCore at hp
    have h1 := List.mem_of_mem_take hp
    have h2 := (List.mem_insertionSort ratedDesc).mp h1
    simpa using List.of_mem_filter h2
  refine ⟨fun db => rfl, hmem, ?_, ?_, ?_, ?_⟩
  · intro db limit minR
    exact List.Pairwise.sublist (List.take_sublist _ _)
      (List.sorted_insertionSort ratedDesc _)
  · intro db limit minR
    exact List.length_take_le _ _
  · intro db limit minR h
    unfold topRatedCore
    rw [List.take_of_length_le (by
      rw [(List.perm_insertionSort ratedDesc _).length_eq]
      exact h)]
    exact List.perm_insertionSort ratedDesc _
  · intro db limit minR p hlt hp
    exact absurd (hmem db limit minR p hp) (not_le.mpr hlt)

/-- C7 witness: the conjuncts with hypotheses applied at a concrete store —
membership implies the count bound, the one qualifying product is returned
under the defaults, and a single-rating product is excluded at minRatings 2. -/
theorem c7_witness :
    (1 : Int) ≤ (exOneRating.totalRatings : Int)
    ∧ (topRatedCore exDbOne 10 1).Perm
        (exDbOne.filter (fun p => decide ((1 : Int) ≤ (p.totalRatings : Int))))
    ∧ exOneRating ∉ topRatedCore exDbOne 2 2 :=
  ⟨c7_top_rated.2.1 exDbOne 10 1 exOneRating (by decide),
   c7_top_rated.2.2.2.2.1 exDbOne 10 1 (by decide),
   c7_top_rated.2.2.2.2.2 exDbOne 2 2 exOneRating (by decide)⟩

/-- C8: rating statistics fail with 404 when the product is absent; for an
existing product they report its stored `avgRating`, `totalRatings` and, for
every star value, the count of rating entries with that value; and after
three upserts {u1 ↦ 5, u2 ↦ 5, u3 ↦ 4} on a fresh product they report
avgRating 14/3, totalRatings 3 and histogram 5 ↦ 2, 4 ↦ 1, 3,2,1 ↦ 0. -/
theorem c8_rating_stats :
    (∀ (db : DB) (id : String), findById db id = none →
        statsHandler db id = StatsOutcome.notFound "Product not found.")
    ∧ (∀ (db : DB) (id : String) (p : Product), findById db id = some p →
        statsAvg (statsHandler db id) = some p.avgRating
        ∧ statsTotal (statsHandler db id) = some p.totalRatings
        ∧ ∀ star : Int, statsCount (statsHandler db id) star
            = some ((p.ratings.filter (fun rt => rt.rating == star)).length))
    ∧ statsAvg (statsHandler exDbThreeUpserts "p8") = some (14/3)
    ∧ statsTotal (statsHandler exDbThreeUpserts "p8") = some 3
    ∧ statsCount (statsHandler exDbThreeUpserts "p8") 5 = some 2
    ∧ statsCount (statsHandler exDbThreeUpserts "p8") 4 = some 1
    ∧ statsCount (statsHandler exDbThreeUpserts "p8") 3 = some 0
    ∧ statsCount (statsHandler exDbThreeUpserts "p8") 2 = some 0
    ∧ statsCount (statsHandler exDbThreeUpserts "p8") 1 = some 0 := by
  refine ⟨?_, ?_, ?_, by decide, by decide, by decide, by decide, by decide, by decide⟩
  · intro db id h
    simp [statsHandler, h]
  · intro db id p h
    exact ⟨by simp [statsHandler, h, statsAvg],
      by simp [statsHandler, h, statsTotal],
      fun star => by simp [statsHandler, h, statsCount]⟩
  · simp +decide [exDbThreeUpserts, rateHandler, truthyStr, truthyNum, findById, preSave,
      upsertList, saveDoc, statsHandler, statsAvg, ratingSum, exFresh, mkProduct,
      List.find?, List.filter]

/-- C8 witness: the 404 conjunct at an empty store and the field conjunct at
a concrete product. -/
theorem c8_witness :
    statsHandler ([] : DB) "p1" = StatsOutcome.notFound "Product not found."
    ∧ statsAvg (statsHandler exDbOne "p1") = some exOneRating.avgRating
    ∧ statsCount (statsHandler exDbOne "p1") 3
        = some ((exOneRating.ratings.filter (fun rt => rt.rating == 3)).length) :=
  ⟨c8_rating_stats.1 [] "p1" rfl,
   (c8_rating_stats.2.1 exDbOne "p1" exOneRating (by decide)).1,
   (c8_rating_stats.2.1 exDbOne "p1" exOneRating (by decide)).2.2 3⟩

theorem upsertList_existing (l₁ l₂ : List Rating) (old : Rating) (u : String) (r : Int)
    (rv : Option String) (now : Nat)
    (h₁ : ∀ rt ∈ l₁, rt.userId ≠ u) (hold : old.userId = u) :
    upsertList (l₁ ++ old :: l₂) u r rv now
      = l₁ ++ { old with
          rating := r
          review := if truthyStr rv then rv.getD "" else old.review
          createdAt := now } :: l₂ := by
  induction l₁ with
  | nil =>
    simp [upsertList, hold]
  | cons a l ih =>
    have ha : (a.userId == u) = false :=
      beq_eq_false_iff_ne.mpr (h₁ a (List.mem_cons_self a l))
    simp only [List.cons_append, upsertList, ha, Bool.false_eq_true, if_false,
      List.cons.injEq, true_and]
    exact ih (fun rt hrt => h₁ rt (List.mem_cons_of_mem a hrt))

/-- C9: when the product exists and user u already has a rating entry (the
first entry with that userId), a valid upsert rewrites that entry in place:
its rating becomes r and its createdAt becomes the current time, its review
is replaced only when the supplied review is non-empty and is kept verbatim
when the review is omitted or empty, and every other entry is untouched; the
updated document then goes through the recompute-and-save path. -/
theorem c9_upsert_in_place :
    ∀ (db : DB) (id u : String) (r : Int) (rv : Option String) (now : Nat)
      (p : Product) (l₁ l₂ : List Rating) (old : Rating),
      u ≠ "" → 1 ≤ r → r ≤ 5 →
      findById db id = some p →
      p.ratings = l₁ ++ old :: l₂ →
      (∀ rt ∈ l₁, rt.userId ≠ u) →
      old.userId = u →
      rateHandler db id ⟨some u, some r, rv⟩ now
        = (RateOutcome.ok (preSave { p with ratings := l₁ ++ { old with
              rating := r
              review := if truthyStr rv then rv.getD "" else old.review
              createdAt := now } :: l₂ }),
           saveDoc db (preSave { p with ratings := l₁ ++ { old with
              rating := r
              review := if truthyStr rv then rv.getD "" else old.review
              createdAt := now } :: l₂ }))
      ∧ ((rv = none ∨ rv = some "") →
          (if truthyStr rv then rv.getD "" else old.review) = old.review)
      ∧ (∀ v : String, rv = some v → v ≠ "" →
          (if truthyStr rv then rv.getD "" else old.review) = v) := by
  intro db id u r rv now p l₁ l₂ old hu h1 h5 hfind hsplit hfirst hold
  have hbeq : (u == "") = false := beq_eq_false_iff_ne.mpr hu
  have hr0 : (r == 0) = false := by
    rw [beq_eq_false_iff_ne]
    omega
  have hlt : ¬ r < 1 := by omega
  have hgt : ¬ r > 5 := by omega
  refine ⟨?_, ?_, ?_⟩
  · have hup := upsertList_existing l₁ l₂ old u r rv now hfirst hold
    have hcond : (!truthyStr (some u) || !truthyNum (some r)
        || decide (r < 1) || decide (r > 5)) = false := by
      simp [truthyStr, truthyNum, hbeq, hr0, hlt, hgt]
    simp only [rateHandler, hfind, Option.getD_some]
    rw [hsplit, hup, hcond]
    simp
  · intro hcase
    rcases hcase with h | h <;> simp [h, truthyStr]
  · intro v hv hvne
    simp [hv, truthyStr, beq_eq_false_iff_ne.mpr hvne, hvne]

/-- C9 witness: updating u1 on a two-rating product with an omitted review
keeps the stored review "good" while the rating, and only that entry,
changes; supplying review "new" replaces it. -/
theorem c9_witness :
    rateHandler exDbTwo "p2" ⟨some "u1", some 4, none⟩ 9
      = (RateOutcome.ok (preSave { exTwoRatings with ratings := [] ++ { (⟨"u1", 5, "good", 1⟩ : Rating) with
            rating := 4
            review := if truthyStr none then (none : Option String).getD "" else "good"
            createdAt := 9 } :: [⟨"u2", 3, "", 2⟩] }),
         saveDoc exDbTwo (preSave { exTwoRatings with ratings := [] ++ { (⟨"u1", 5, "good", 1⟩ : Rating) with
            rating := 4
            review := if truthyStr none then (none : Option String).getD "" else "good"
            createdAt := 9 } :: [⟨"u2", 3, "", 2⟩] }))
    ∧ (if truthyStr (none : Option String) then (none : Option String).getD "" else "good") = "good"
    ∧ (if truthyStr (some "new") then (some "new").getD "" else "good") = "new" := by
  have h := c9_upsert_in_place exDbTwo "p2" "u1" 4 none 9 exTwoRatings []
    [⟨"u2", 3, "", 2⟩] ⟨"u1", 5, "good", 1⟩ (by decide) (by decide) (by decide)
    (by decide) (by decide) (by decide) rfl
  have h2 := c9_upsert_in_place exDbTwo "p2" "u1" 4 (some "new") 9 exTwoRatings []
    [⟨"u2", 3, "", 2⟩] ⟨"u1", 5, "good", 1⟩ (by decide) (by decide) (by decide)
    (by decide) (by decide) (by decide) rfl
  exact ⟨h.1, h.2.1 (Or.inl rfl), h2.2.2 "new" rfl (by decide)⟩

theorem reviewPred_eq (rt : Rating) :
    (!(rt.review == "") && !(jsTrim rt.review == "")) = !(jsTrim rt.review == "") := by
  by_cases h : rt.review = ""
  · rw [h]
    decide
  · simp [beq_eq_false_iff_ne.mpr h]

/-- A product carrying reviews of every flavor: non-empty, empty, blank
(whitespace only), with createdAt values out of order. -/
def exReviewProduct : Product :=
  mkProduct "p9" [⟨"u1", 5, "nice", 1⟩, ⟨"u2", 4, "", 2⟩, ⟨"u3", 3, "  ", 3⟩, ⟨"u4", 2, "ok", 4⟩] 0 0

/-- C10: list-reviews fails with 404 when the product is absent; for an
existing product the returned list consists of exactly those rating entries
whose review is non-empty after trimming whitespace (as a permutation of
the filtered ratings) and is sorted by createdAt descending. -/
theorem c10_list_reviews :
    (∀ (db : DB) (id : String), findById db id = none →
        reviewsHandler db id = ReviewsOutcome.notFound "Product not found.")
    ∧ (∀ (db : DB) (id : String) (p : Product) (l : List Rating),
        findById db id = some p → reviewsHandler db id = ReviewsOutcome.ok l →
        l.Perm (p.ratings.filter (fun rt => !(jsTrim rt.review == "")))
        ∧ List.Sorted createdDesc l) := by
  constructor
  · intro db id h
    simp [reviewsHandler, h]
  · intro db id p l hfind hl
    unfold reviewsHandler at hl
    rw [hfind] at hl
    simp only [ReviewsOutcome.ok.injEq] at hl
    subst hl
    constructor
    · have hfeq : p.ratings.filter (fun rt => !(rt.review == "") && !(jsTrim rt.review == ""))
          = p.ratings.filter (fun rt => !(jsTrim rt.review == "")) :=
        List.filter_congr (fun rt _ => reviewPred_eq rt)
      rw [← hfeq]
      exact List.perm_insertionSort createdDesc _
    · exact List.sorted_insertionSort createdDesc _

/-- C10 witness: on a product whose reviews are "nice" (t=1), "" (t=2),
"  " (t=3) and "ok" (t=4), the handler returns exactly the "ok" and "nice"
entries, in that (createdAt-descending) order; the blank review is trimmed
away. -/
theorem c10_witness :
    (([⟨"u4", 2, "ok", 4⟩, ⟨"u1", 5, "nice", 1⟩] : List Rating)).Perm
      (exReviewProduct.ratings.filter (fun rt => !(jsTrim rt.review == "")))
    ∧ List.Sorted createdDesc ([⟨"u4", 2, "ok", 4⟩, ⟨"u1", 5, "nice", 1⟩] : List Rating) :=
  c10_list_reviews.2 [exReviewProduct] "p9" exReviewProduct
    [⟨"u4", 2, "ok", 4⟩, ⟨"u1", 5, "nice", 1⟩] (by decide) (by decide)

end Oauth4
